import Mathlib

/-!
Shallow embedding of the OACC configuration-builder example
(`src/oacc_example.cpp`): a compile-time configuration mechanism with
strongly-typed options, order-independent construction, duplicate-kind
rejection and static validation.

Machine integers (`uint64_t`) are modelled as `Nat` with explicit
`% 2 ^ 64` at the two places where wraparound can occur (`ceil_div`
and the prompt-plus-generation check).  Division by zero, which is
undefined behaviour (ill-formed in a `consteval` context) in the C++,
is modelled by `Option`: `none` marks the undefined computation.
Compile-time failures (the concept check and the `static_assert`s)
are modelled as explicit error values.
-/

deriving instance DecidableEq for Except

namespace OACC

/-- The modulus of C++ `uint64_t` arithmetic. -/
def U64 : Nat := 2 ^ 64

/-- `UINT64_MAX`, the sentinel meaning "unset / use default". -/
def U64MAX : Nat := U64 - 1

/-- The nine option kinds of the system, one per strongly-typed enum
wrapper in the source (`exceptions_type`, `benchmark_type`, `dev_type`,
`max_context_length_type`, `max_prompt_length_type`,
`max_generation_length_type`, `max_batch_size_type`, `gpu_rank_type`,
`gpu_count_type`). -/
inductive option_kind where
  | exceptions
  | benchmark
  | dev
  | max_context_length
  | max_prompt_length
  | max_generation_length
  | max_batch_size
  | gpu_rank
  | gpu_count
deriving DecidableEq

/-- A configuration option: one of the strongly-typed enum wrapper
values of the source.  Flag kinds carry a `Bool` (`disabled`/`enabled`),
value kinds carry a `uint64_t` modelled as `Nat`. -/
inductive config_option where
  | exceptions (v : Bool)
  | benchmark (v : Bool)
  | dev (v : Bool)
  | max_context_length (v : Nat)
  | max_prompt_length (v : Nat)
  | max_generation_length (v : Nat)
  | max_batch_size (v : Nat)
  | gpu_rank (v : Nat)
  | gpu_count (v : Nat)
deriving DecidableEq

/-- The kind (C++ type, after `remove_cvref`) of an option. -/
def config_option.kind : config_option → option_kind
  | .exceptions _ => .exceptions
  | .benchmark _ => .benchmark
  | .dev _ => .dev
  | .max_context_length _ => .max_context_length
  | .max_prompt_length _ => .max_prompt_length
  | .max_generation_length _ => .max_generation_length
  | .max_batch_size _ => .max_batch_size
  | .gpu_rank _ => .gpu_rank
  | .gpu_count _ => .gpu_count

/-- The configuration container `struct model_config`, with the default
member initialisers of the source. -/
structure model_config where
  exceptions : Bool := false
  max_context_length : Nat := 1024
  max_prompt_length : Nat := U64MAX
  max_generation_length : Nat := U64MAX
  max_batch_size : Nat := 1
  gpu_count : Nat := 1
  gpu_rank : Nat := 0
  benchmark : Bool := false
  dev : Bool := false
deriving DecidableEq

/-- `model_config::update`: the nine type-routed overloads collapse to a
single dispatch on the option's kind; each branch copies the
configuration and replaces exactly one field. -/
def model_config.update (c : model_config) : config_option → model_config
  | .exceptions v => { c with exceptions := v }
  | .benchmark v => { c with benchmark := v }
  | .dev v => { c with dev := v }
  | .max_context_length v => { c with max_context_length := v }
  | .max_prompt_length v => { c with max_prompt_length := v }
  | .max_generation_length v => { c with max_generation_length := v }
  | .max_batch_size v => { c with max_batch_size := v }
  | .gpu_rank v => { c with gpu_rank := v }
  | .gpu_count v => { c with gpu_count := v }

/-- Read the field of a configuration selected by an option kind, as a
`config_option` value (so flag and integer fields can be compared
uniformly). -/
def read_field (c : model_config) : option_kind → config_option
  | .exceptions => .exceptions c.exceptions
  | .benchmark => .benchmark c.benchmark
  | .dev => .dev c.dev
  | .max_context_length => .max_context_length c.max_context_length
  | .max_prompt_length => .max_prompt_length c.max_prompt_length
  | .max_generation_length => .max_generation_length c.max_generation_length
  | .max_batch_size => .max_batch_size c.max_batch_size
  | .gpu_rank => .gpu_rank c.gpu_rank
  | .gpu_count => .gpu_count c.gpu_count

/-- `ceil_div(a, b) = (a + b - 1) / b` over `uint64_t`.  The numerator
`a + b - 1` is computed modulo `2 ^ 64` (adding `2 ^ 64 - 1` is the
wrapping subtraction of 1).  `b = 0` is division by zero, undefined
behaviour in the C++, modelled as `none`. -/
def ceil_div (a b : Nat) : Option Nat :=
  if b = 0 then none else some (((a + b + (U64 - 1)) % U64) / b)

/-- `get_updated_value<value_01, value_02>()`: if `value_01` is the
`UINT64_MAX` sentinel, compute `ceil_div(value_02, 2)`; otherwise keep
`value_01`.  The divisor of the `ceil_div` call is the literal 2;
`value_02` (the context length) is the dividend. -/
def get_updated_value (value_01 value_02 : Nat) : Option Nat :=
  if value_01 = U64MAX then ceil_div value_02 2 else some value_01

/-- The validation failures of `model_config_errors` that can fire
during `model_config_type` instantiation, each carrying the values the
corresponding `static_assert_printer_val` embeds in the diagnostic. -/
inductive validation_error where
  | context_length_too_short (max_context_length : Nat)
  | prompt_length_or_generation_length_too_large
      (max_context_length max_generation_length max_prompt_length : Nat)
deriving DecidableEq

/-- The resolved `constexpr` members of `model_config_type<config>`. -/
structure resolved_config where
  exceptions : Bool
  max_context_length : Nat
  max_prompt_length : Nat
  max_generation_length : Nat
  max_batch_size : Nat
  gpu_count : Nat
  gpu_rank : Nat
  benchmark : Bool
  dev : Bool
deriving DecidableEq

/-- Computing the `constexpr` members of `model_config_type<config>`:
every field is copied, except that `max_prompt_length` and
`max_generation_length` go through `get_updated_value` with
`max_context_length`.  `none` if a member computation is undefined. -/
def resolve (c : model_config) : Option resolved_config :=
  match get_updated_value c.max_prompt_length c.max_context_length,
        get_updated_value c.max_generation_length c.max_context_length with
  | some p, some g =>
      some { exceptions := c.exceptions
             max_context_length := c.max_context_length
             max_prompt_length := p
             max_generation_length := g
             max_batch_size := c.max_batch_size
             gpu_count := c.gpu_count
             gpu_rank := c.gpu_rank
             benchmark := c.benchmark
             dev := c.dev }
  | _, _ => none

/-- The `static_assert` failures fired during instantiation of
`model_config_type`, in source order, on the resolved members.  Both
assertions are evaluated independently (a failing instantiation reports
every violated assertion).  The prompt-plus-generation sum is `uint64_t`
addition, hence taken modulo `2 ^ 64`. -/
def assert_failures (r : resolved_config) : List validation_error :=
  (if r.max_context_length > 1 then []
   else [.context_length_too_short r.max_context_length]) ++
  (if (r.max_generation_length + r.max_prompt_length) % U64 ≤ r.max_context_length then []
   else [.prompt_length_or_generation_length_too_large
           r.max_context_length r.max_generation_length r.max_prompt_length])

/-- Validation: resolve the members, then fail with the list of fired
assertions if any, otherwise produce the resolved configuration.
`none` means the member computation itself was undefined. -/
def validate (c : model_config) : Option (Except (List validation_error) resolved_config) :=
  (resolve c).map fun r =>
    if assert_failures r = [] then .ok r else .error (assert_failures r)

/-- The build-time error of `generate_model_config`'s concept check,
carrying the kinds of all supplied arguments (the
`static_assert_printer` embeds the whole argument type pack in the
diagnostic). -/
inductive build_error where
  | duplicate_type_input (kinds : List option_kind)
deriving DecidableEq

/-- `type_occurrence_count` and the `unique_configuration_types`
concept: every argument's kind occurs exactly once in the pack. -/
def unique_configuration_types (args : List config_option) : Bool :=
  args.all fun a => args.countP (fun b => b.kind == a.kind) == 1

/-- `generate_model_config(args...)`: reject duplicate kinds, otherwise
fold `update` over a default-constructed `model_config`, left to
right. -/
def generate_model_config (args : List config_option) :
    Except build_error model_config :=
  if unique_configuration_types args then
    .ok (args.foldl model_config.update {})
  else
    .error (.duplicate_type_input (args.map config_option.kind))

/-- The overload taking an explicit base configuration: duplicate
checking applies only among the new arguments. -/
def generate_model_config_base (base : model_config) (args : List config_option) :
    Except build_error model_config :=
  if unique_configuration_types args then
    .ok (args.foldl model_config.update base)
  else
    .error (.duplicate_type_input (args.map config_option.kind))

/-! ## Helper lemmas -/

/-- Counting a kind among the mapped kinds is counting options of that
kind. -/
lemma count_kind_eq_countP (l : List config_option) (k : option_kind) :
    (l.map config_option.kind).count k = l.countP (fun b => b.kind == k) := by
  rw [List.count_eq_countP, List.countP_map]
  rfl

/-- The `unique_configuration_types` concept holds exactly when the
list of argument kinds has no duplicate. -/
lemma unique_iff_nodup (l : List config_option) :
    unique_configuration_types l = true ↔ (l.map config_option.kind).Nodup := by
  rw [List.nodup_iff_count_eq_one]
  simp only [unique_configuration_types, List.all_eq_true, beq_iff_eq, List.mem_map]
  constructor
  · rintro h k ⟨a, ha, rfl⟩
    rw [count_kind_eq_countP]
    exact h a ha
  · intro h a ha
    rw [← count_kind_eq_countP]
    exact h _ ⟨a, ha, rfl⟩

/-- Updates for options of distinct kinds commute: each touches a
disjoint field. -/
lemma update_comm (c : model_config) (a b : config_option)
    (h : a.kind ≠ b.kind) :
    (c.update a).update b = (c.update b).update a := by
  cases a <;> cases b <;> simp_all [config_option.kind, model_config.update]

/-- Over a list whose kinds are pairwise distinct, any two member
updates commute (the commutation hypothesis of `List.Perm.foldl_eq`
variants). -/
lemma foldl_update_comm {l : List config_option}
    (h : (l.map config_option.kind).Nodup) :
    ∀ x ∈ l, ∀ y ∈ l, ∀ z : model_config,
      (z.update x).update y = (z.update y).update x := by
  intro x hx y hy z
  by_cases hxy : x = y
  · subst hxy; rfl
  · exact update_comm z x y
      (fun hk => hxy (List.inj_on_of_nodup_map h hx hy hk))

/-- What `resolve` computes, member by member: the two length fields go
through `get_updated_value`, the context length is copied. -/
lemma resolve_spec (c : model_config) (r : resolved_config)
    (hr : resolve c = some r) :
    get_updated_value c.max_prompt_length c.max_context_length
        = some r.max_prompt_length ∧
      get_updated_value c.max_generation_length c.max_context_length
        = some r.max_generation_length ∧
      r.max_context_length = c.max_context_length := by
  unfold resolve at hr
  cases hp : get_updated_value c.max_prompt_length c.max_context_length with
  | none => rw [hp] at hr; simp at hr
  | some p =>
    cases hg : get_updated_value c.max_generation_length c.max_context_length with
    | none => rw [hp, hg] at hr; simp at hr
    | some g =>
      rw [hp, hg] at hr
      simp only [Option.some.injEq] at hr
      subst hr
      exact ⟨rfl, rfl, rfl⟩

/-- The context-length assertion fires exactly when the resolved
context length is not greater than 1. -/
lemma mem_assert_failures_clts (r : resolved_config) :
    (validation_error.context_length_too_short r.max_context_length
        ∈ assert_failures r) ↔
      ¬ r.max_context_length > 1 := by
  unfold assert_failures
  split <;> split <;> simp_all

/-- The prompt-plus-generation assertion fires exactly when the wrapped
sum of the resolved lengths exceeds the context length. -/
lemma mem_assert_failures_pogtl (r : resolved_config) :
    (validation_error.prompt_length_or_generation_length_too_large
        r.max_context_length r.max_generation_length r.max_prompt_length
        ∈ assert_failures r) ↔
      ¬ (r.max_generation_length + r.max_prompt_length) % U64
          ≤ r.max_context_length := by
  unfold assert_failures
  split <;> split <;> simp_all

/-- `validate` fails with a list containing a given error exactly when
that error is among the fired assertions of the resolved members. -/
lemma validate_error_iff (c : model_config) (r : resolved_config)
    (hr : resolve c = some r) (e : validation_error) :
    (∃ es, validate c = some (.error es) ∧ e ∈ es) ↔
      e ∈ assert_failures r := by
  simp only [validate, hr, Option.map_some']
  split <;> simp_all

/-! ## Claims -/

/-- **C1.** For options with pairwise-distinct kinds,
`generate_model_config` applied to any permutation of the options
produces the same `model_config`: the per-kind updates touch disjoint
fields, so the left fold is order independent. -/
theorem generate_model_config_perm (l₁ l₂ : List config_option)
    (hperm : l₁.Perm l₂)
    (huniq : unique_configuration_types l₁ = true) :
    generate_model_config l₁ = generate_model_config l₂ := by
  have h1 : (l₁.map config_option.kind).Nodup := (unique_iff_nodup l₁).1 huniq
  have h2 : (l₂.map config_option.kind).Nodup :=
    (hperm.map config_option.kind).nodup_iff.1 h1
  have huniq2 : unique_configuration_types l₂ = true := (unique_iff_nodup l₂).2 h2
  simp only [generate_model_config, huniq, huniq2, if_true]
  exact congrArg Except.ok (hperm.foldl_eq' (foldl_update_comm h1) _)

/-- Witness for C1 at the argument lists of `config_02` in the demo
`main`, in two different orders. -/
theorem generate_model_config_perm_witness :
    generate_model_config
        [.dev false, .benchmark false, .max_batch_size 23] =
      generate_model_config
        [.max_batch_size 23, .dev false, .benchmark false] :=
  generate_model_config_perm _ _ (by decide) (by decide)

/-- **C2.** Whenever two supplied options (at distinct positions) share
a kind, the build fails with the duplicate-kind error carrying the
argument kinds, and no configuration — in particular no partially
updated one — is produced: the fold is never entered. -/
theorem generate_model_config_duplicate (args : List config_option)
    (i j : Nat) (hi : i < args.length) (hj : j < args.length)
    (hij : i ≠ j)
    (hkind : (args.get ⟨i, hi⟩).kind = (args.get ⟨j, hj⟩).kind) :
    generate_model_config args =
      .error (.duplicate_type_input (args.map config_option.kind)) := by
  have hnot : ¬ (args.map config_option.kind).Nodup := by
    intro hnd
    have hinj := List.nodup_iff_injective_get.1 hnd
    have hlen : (args.map config_option.kind).length = args.length :=
      args.length_map config_option.kind
    have hget : (args.map config_option.kind).get ⟨i, by omega⟩ =
        (args.map config_option.kind).get ⟨j, by omega⟩ := by
      simp only [List.get_eq_getElem, List.getElem_map]
      exact hkind
    have := congrArg Fin.val (hinj hget)
    exact hij this
  have hfalse : unique_configuration_types args = false := by
    rcases Bool.eq_false_or_eq_true (unique_configuration_types args) with h | h
    · exact absurd ((unique_iff_nodup args).1 h) hnot
    · exact h
  simp [generate_model_config, hfalse]

/-- Witness for C2: supplying the `dev` kind twice (with different
values) fails with the duplicate-kind error. -/
theorem generate_model_config_duplicate_witness :
    generate_model_config [.dev true, .dev false] =
      .error (.duplicate_type_input [.dev, .dev]) :=
  generate_model_config_duplicate [.dev true, .dev false] 0 1
    (by decide) (by decide) (by decide) (by decide)

/-- **C7.** The build with zero options yields exactly the default
configuration: exceptions disabled, max-context-length 1024, prompt and
generation lengths the `UINT64_MAX` sentinel, max-batch-size 1,
gpu-count 1, gpu-rank 0, benchmark and dev disabled. -/
theorem generate_model_config_default :
    generate_model_config [] =
      .ok { exceptions := false
            max_context_length := 1024
            max_prompt_length := U64MAX
            max_generation_length := U64MAX
            max_batch_size := 1
            gpu_count := 1
            gpu_rank := 0
            benchmark := false
            dev := false } := by
  decide

/-- **C8.** `update` writes the option's value into the field of the
option's kind and leaves every other field unchanged. -/
theorem update_frame (c : model_config) (o : config_option) :
    read_field (c.update o) o.kind = o ∧
      ∀ k : option_kind, k ≠ o.kind →
        read_field (c.update o) k = read_field c k := by
  constructor
  · cases o <;> rfl
  · intro k hk
    cases o <;> cases k <;>
      simp_all [config_option.kind, model_config.update, read_field]

/-- **C3.** Validation resolves `max_prompt_length` to
`ceil_div(max_context_length, 2)` exactly when it is the `UINT64_MAX`
sentinel and keeps it unchanged otherwise, and applies the identical
rule to `max_generation_length`; with context length 100 an unset
prompt length resolves to 50, with 101 to 51, and validating the
default configuration succeeds with both lengths 512. -/
theorem validate_resolution :
    (∀ (c : model_config) (r : resolved_config), resolve c = some r →
      (c.max_prompt_length = U64MAX →
        some r.max_prompt_length = ceil_div c.max_context_length 2) ∧
      (c.max_prompt_length ≠ U64MAX →
        r.max_prompt_length = c.max_prompt_length) ∧
      (c.max_generation_length = U64MAX →
        some r.max_generation_length = ceil_div c.max_context_length 2) ∧
      (c.max_generation_length ≠ U64MAX →
        r.max_generation_length = c.max_generation_length)) ∧
    resolve { max_context_length := 100 } =
      some { exceptions := false, max_context_length := 100,
             max_prompt_length := 50, max_generation_length := 50,
             max_batch_size := 1, gpu_count := 1, gpu_rank := 0,
             benchmark := false, dev := false } ∧
    resolve { max_context_length := 101 } =
      some { exceptions := false, max_context_length := 101,
             max_prompt_length := 51, max_generation_length := 51,
             max_batch_size := 1, gpu_count := 1, gpu_rank := 0,
             benchmark := false, dev := false } ∧
    validate {} =
      some (.ok { exceptions := false, max_context_length := 1024,
                  max_prompt_length := 512, max_generation_length := 512,
                  max_batch_size := 1, gpu_count := 1, gpu_rank := 0,
                  benchmark := false, dev := false }) := by
  refine ⟨?_, by decide, by decide, by decide⟩
  intro c r hr
  obtain ⟨hp, hg, -⟩ := resolve_spec c r hr
  refine ⟨fun h => ?_, fun h => ?_, fun h => ?_, fun h => ?_⟩
  · rw [get_updated_value, if_pos h] at hp
    exact hp.symm
  · rw [get_updated_value, if_neg h] at hp
    exact (Option.some.inj hp).symm
  · rw [get_updated_value, if_pos h] at hg
    exact hg.symm
  · rw [get_updated_value, if_neg h] at hg
    exact (Option.some.inj hg).symm

/-- Witness for C3 at context length 100 with the prompt length left at
the sentinel: it resolves to `ceil_div 100 2 = 50`. -/
theorem validate_resolution_witness :
    some (50 : Nat) = ceil_div 100 2 :=
  (validate_resolution.1 { max_context_length := 100 }
      { exceptions := false, max_context_length := 100,
        max_prompt_length := 50, max_generation_length := 50,
        max_batch_size := 1, gpu_count := 1, gpu_rank := 0,
        benchmark := false, dev := false } (by decide)).1 (by decide)

/-- **C4.** Validation fails with the prompt-or-generation-too-large
error, reporting context, generation and prompt lengths, exactly when
the (`uint64_t`-wrapped) sum of the resolved generation and prompt
lengths exceeds the context length; context length 10 with prompt and
generation lengths 6 fails this way. -/
theorem validate_pogtl_iff :
    (∀ (c : model_config) (r : resolved_config), resolve c = some r →
      ((∃ es, validate c = some (.error es) ∧
          validation_error.prompt_length_or_generation_length_too_large
            r.max_context_length r.max_generation_length r.max_prompt_length
            ∈ es) ↔
        ¬ (r.max_generation_length + r.max_prompt_length) % U64
            ≤ r.max_context_length)) ∧
    validate { max_context_length := 10, max_prompt_length := 6,
               max_generation_length := 6 } =
      some (.error
        [.prompt_length_or_generation_length_too_large 10 6 6]) := by
  refine ⟨?_, by decide⟩
  intro c r hr
  exact (validate_error_iff c r hr _).trans (mem_assert_failures_pogtl r)

/-- Witness for C4 at context length 10, prompt length 6, generation
length 6: the failure with the reported values 10, 6, 6 exists. -/
theorem validate_pogtl_iff_witness :
    ∃ es, validate { max_context_length := 10, max_prompt_length := 6,
                     max_generation_length := 6 } = some (.error es) ∧
      validation_error.prompt_length_or_generation_length_too_large 10 6 6
        ∈ es :=
  (validate_pogtl_iff.1
      { max_context_length := 10, max_prompt_length := 6,
        max_generation_length := 6 }
      { exceptions := false, max_context_length := 10,
        max_prompt_length := 6, max_generation_length := 6,
        max_batch_size := 1, gpu_count := 1, gpu_rank := 0,
        benchmark := false, dev := false } (by decide)).2 (by decide)

/-- **C5 counterexample.** With max-context-length 0 and the lengths
unset, resolution is a well-defined computation yielding 0 — not a
division by zero (which the embedding renders as `none`, as
`ceil_div 0 0 = none` shows): the `ceil_div` call takes the context
length as its dividend, and its divisor is the literal 2. -/
theorem get_updated_value_zero_context_defined :
    ceil_div 0 0 = none ∧
      get_updated_value U64MAX 0 = some 0 ∧
      validate { max_context_length := 0 } =
        some (.error [.context_length_too_short 0]) := by
  decide

/-- **C5 (amended).** `get_updated_value` passes max-context-length to
`ceil_div` as the dividend, with the nonzero literal 2 as divisor, so
the resolution never divides by zero for any values; a configuration
with max-context-length 0 (lengths unset) resolves both lengths to 0
and validation fails with the context-length-too-short error. -/
theorem get_updated_value_never_div_by_zero :
    (∀ value_01 value_02 : Nat,
        (get_updated_value value_01 value_02).isSome = true) ∧
      resolve { max_context_length := 0 } =
        some { exceptions := false, max_context_length := 0,
               max_prompt_length := 0, max_generation_length := 0,
               max_batch_size := 1, gpu_count := 1, gpu_rank := 0,
               benchmark := false, dev := false } ∧
      validate { max_context_length := 0 } =
        some (.error [.context_length_too_short 0]) := by
  refine ⟨?_, by decide, by decide⟩
  intro v1 v2
  unfold get_updated_value ceil_div
  split <;> simp

/-- **C6.** Validation fails with the context-length-too-short error
(carrying the context length) exactly when max-context-length is not
greater than 1; context length 1 fails this way, while context length 2
with prompt and generation lengths explicitly 1 validates
successfully. -/
theorem validate_clts_iff :
    (∀ (c : model_config) (r : resolved_config), resolve c = some r →
      ((∃ es, validate c = some (.error es) ∧
          validation_error.context_length_too_short c.max_context_length
            ∈ es) ↔
        ¬ c.max_context_length > 1)) ∧
    (∃ es, validate { max_context_length := 1 } = some (.error es) ∧
      validation_error.context_length_too_short 1 ∈ es) ∧
    validate { max_context_length := 2, max_prompt_length := 1,
               max_generation_length := 1 } =
      some (.ok { exceptions := false, max_context_length := 2,
                  max_prompt_length := 1, max_generation_length := 1,
                  max_batch_size := 1, gpu_count := 1, gpu_rank := 0,
                  benchmark := false, dev := false }) := by
  refine ⟨?_, ?_, by decide⟩
  · intro c r hr
    obtain ⟨-, -, hmcl⟩ := resolve_spec c r hr
    rw [← hmcl]
    exact (validate_error_iff c r hr _).trans (mem_assert_failures_clts r)
  · exact ⟨[.context_length_too_short 1,
      .prompt_length_or_generation_length_too_large 1 1 1],
      by decide, by decide⟩

/-- Witness for C6 at context length 1: the failure with the reported
value 1 exists. -/
theorem validate_clts_iff_witness :
    ∃ es, validate { max_context_length := 1 } = some (.error es) ∧
      validation_error.context_length_too_short 1 ∈ es :=
  (validate_clts_iff.1 { max_context_length := 1 }
      { exceptions := false, max_context_length := 1,
        max_prompt_length := 1, max_generation_length := 1,
        max_batch_size := 1, gpu_count := 1, gpu_rank := 0,
        benchmark := false, dev := false } (by decide)).2 (by decide)

/-- **C9.** With max-context-length `UINT64_MAX` and both lengths
unset, validation succeeds and resolves both lengths to 0: the
numerator of `ceil_div` wraps modulo `2 ^ 64` to 0. -/
theorem validate_context_u64max_wraps :
    validate { max_context_length := U64MAX } =
      some (.ok { exceptions := false, max_context_length := U64MAX,
                  max_prompt_length := 0, max_generation_length := 0,
                  max_batch_size := 1, gpu_count := 1, gpu_rank := 0,
                  benchmark := false, dev := false }) ∧
      ceil_div U64MAX 2 = some 0 ∧
      (U64MAX + 2 + (U64 - 1)) % U64 = 0 := by
  decide

/-- **C10.** The prompt-plus-generation check adds modulo `2 ^ 64`:
prompt length `2 ^ 64 - 2` and generation length 3, whose mathematical
sum exceeds the context length 1024, validate successfully because the
wrapped sum is 1. -/
theorem validate_sum_wraps :
    validate { max_prompt_length := U64 - 2, max_generation_length := 3 } =
      some (.ok { exceptions := false, max_context_length := 1024,
                  max_prompt_length := U64 - 2, max_generation_length := 3,
                  max_batch_size := 1, gpu_count := 1, gpu_rank := 0,
                  benchmark := false, dev := false }) ∧
      1024 < 3 + (U64 - 2) ∧
      (3 + (U64 - 2)) % U64 = 1 := by
  decide

/-- Witness for C8: updating `dev` on the default configuration sets
the `dev` field and leaves the `benchmark` field alone. -/
theorem update_frame_witness :
    read_field (model_config.update {} (.dev true)) .dev = .dev true ∧
      read_field (model_config.update {} (.dev true)) .benchmark =
        read_field {} .benchmark :=
  ⟨(update_frame {} (.dev true)).1,
    (update_frame {} (.dev true)).2 .benchmark (by decide)⟩

end OACC
